import Mathlib

/-!
Verification development for the data-connector module of the
EDA-LLM-Assistant repository (`src/data_connector.py`).

The Python module is a thin adapter over external tabular loaders
(pandas file parsers, SQL drivers, pandas-gbq).  We embed it shallowly:

* external delegates are a `World` of functions (their behaviour is a
  parameter of the model);
* process state (open SQLite handles, the process environment, the log
  of printed status lines, the delegate calls actually issued) is an
  explicit `PyState` threaded through every operation;
* a raised Python exception is an `Except PyError` result, where
  `PyError` carries the exception class name and its message;
* Python truthiness of optional string parameters (`if query:`) is
  modelled by `truthy`, which is false for both `None` and `""`.

Log-line contents follow the source f-strings, except that the
thousands separator of `{n:,}` formatting is not reproduced (plain
decimal instead) and list formatting uses Lean `toString`.
-/

set_option autoImplicit false
set_option maxRecDepth 4000

/-- An in-memory tabular result: column names plus rows of cell values
(the shape data is all the claims need; cell values are strings). -/
structure Table where
  cols : List String
  rows : List (List String)
deriving DecidableEq, Repr

/-- A raised Python exception: its class name (`ImportError`,
`ValueError`, ...) and its message (`str(e)`). -/
structure PyError where
  kind : String
  msg : String
deriving DecidableEq, Repr

deriving instance DecidableEq for Except

/-- The keyword-argument bag (`**kwargs`) forwarded verbatim to the
delegates, as an association list. -/
abbrev Opts := List (String × String)

/-- The result of `pd.read_excel`: a single frame, or (for
`sheet_name=None`) a dict mapping every sheet name to its frame. -/
inductive ExcelResult where
  | frame (df : Table)
  | sheets (m : List (String × Table))
deriving DecidableEq, Repr

/-- The `sheet_name` argument of the `pd.read_excel` delegate: an
integer index, a sheet name, or Python `None` (= all sheets). -/
inductive SheetArg where
  | idx (n : Nat)
  | name (s : String)
  | noneArg
deriving DecidableEq, Repr

/-- The default value of the delegate `pd.read_excel` own `sheet_name`
parameter: sheet index 0 (the first sheet), per the pandas API. -/
def pdDefaultSheet : SheetArg := SheetArg.idx 0

/-- The wrapper passes its `Optional[str]` sheet argument through to the
delegate: `None` stays `None`, a string stays a string. -/
def toSheetArg : Option String → SheetArg
  | none => SheetArg.noneArg
  | some s => SheetArg.name s

/-- Process-level state threaded through each call: the number of open
SQLite connection handles, the process environment, the printed status
lines, and the delegate reads actually issued (`sqlCalls` records each
`pd.read_sql(query, con)` as `(con, query)`; `gbqCalls` records each
`pandas_gbq.read_gbq` as `(query, project_id, env value of
GOOGLE_APPLICATION_CREDENTIALS at call time)`). -/
structure PyState where
  openConns : Nat
  env : List (String × String)
  log : List String
  sqlCalls : List (String × String)
  gbqCalls : List (String × String × Option String)
deriving DecidableEq, Repr

/-- The external collaborators: pandas parsers, `pd.read_sql`, the
SQLite catalog query, `pandas_gbq.read_gbq`, and the availability of the
three optional drivers.  Their behaviour is a parameter of the model. -/
structure World where
  readCsvD : String → Opts → Except PyError Table
  readExcelD : String → SheetArg → Opts → Except PyError ExcelResult
  readJsonD : String → Opts → Except PyError Table
  readSqlD : String → String → Opts → Except PyError Table
  sqliteMasterD : String → Except PyError (List String)
  readGbqD : String → String → Opts → Except PyError Table
  pymysql : Bool
  psycopg2 : Bool
  pandas_gbq : Bool

/-- Append a printed status line to the log. -/
def logp (s : PyState) (line : String) : PyState :=
  { s with log := s.log ++ [line] }

/-- Python truthiness of an `Optional[str]`: `None` and `""` are falsy. -/
def truthy : Option String → Bool
  | none => false
  | some str => str != ""

/-- Remove the first binding of a key from an association list
(Python `dict.pop`; dict keys are unique). -/
def eraseKey (k : String) : Opts → Opts
  | [] => []
  | (k0, v) :: rest => if k0 = k then rest else (k0, v) :: eraseKey k rest

/-- `os.environ[k] = v`. -/
def setEnvVar (s : PyState) (k v : String) : PyState :=
  { s with env := (k, v) :: eraseKey k s.env }

/-- Read a process environment variable. -/
def getEnvVar (s : PyState) (k : String) : Option String :=
  List.lookup k s.env

/-- `sqlite3.connect(path)`: opens a new connection handle. -/
def sqliteConnect (s : PyState) : PyState :=
  { s with openConns := s.openConns + 1 }

/-- The success status line
`f"... Successfully loaded \x7bdf.shape[0]:,\x7d rows and \x7bdf.shape[1]\x7d columns"`
(thousands separator omitted). -/
def successLine (df : Table) : String :=
  "✅ Successfully loaded " ++ toString df.rows.length ++ " rows and "
    ++ toString df.cols.length ++ " columns"

/-- The `query[:100]` truncation used by the query status lines. -/
def queryPreview (q : String) : String :=
  q.take 100 ++ (if q.length > 100 then "..." else "")

/-- `DataConnector.read_csv`: log, delegate to `pd.read_csv`, log the
outcome, propagate any failure unchanged. -/
def read_csv (w : World) (path : String) (opts : Opts) (s : PyState) :
    Except PyError Table × PyState :=
  let s := logp s ("📄 Reading CSV file: " ++ path)
  match w.readCsvD path opts with
  | Except.ok df => (Except.ok df, logp s (successLine df))
  | Except.error e =>
      (Except.error e, logp s ("❌ Error reading CSV file: " ++ e.msg))

/-- `DataConnector.read_excel`: log, delegate to
`pd.read_excel(path, sheet_name=sheet_name, **kwargs)` — the wrapper
always passes its own `sheet_name` (so an omitted sheet reaches the
delegate as `None`, not as the delegate default `0`).  When the
delegate returns the all-sheets dict, the success status line accesses
`df.shape` and raises `AttributeError`. -/
def read_excel (w : World) (path : String) (sheet : Option String)
    (opts : Opts) (s : PyState) : Except PyError Table × PyState :=
  let s := logp s ("📊 Reading Excel file: " ++ path)
  let s := if truthy sheet then logp s ("   Sheet: " ++ sheet.getD "") else s
  match w.readExcelD path (toSheetArg sheet) opts with
  | Except.ok (ExcelResult.frame df) => (Except.ok df, logp s (successLine df))
  | Except.ok (ExcelResult.sheets _) =>
      let e : PyError :=
        ⟨"AttributeError", "\x27dict\x27 object has no attribute \x27shape\x27"⟩
      (Except.error e, logp s ("❌ Error reading Excel file: " ++ e.msg))
  | Except.error e =>
      (Except.error e, logp s ("❌ Error reading Excel file: " ++ e.msg))

/-- `DataConnector.read_json`: log, delegate to `pd.read_json`,
propagate any failure unchanged. -/
def read_json (w : World) (path : String) (opts : Opts) (s : PyState) :
    Except PyError Table × PyState :=
  let s := logp s ("📋 Reading JSON file: " ++ path)
  match w.readJsonD path opts with
  | Except.ok df => (Except.ok df, logp s (successLine df))
  | Except.error e =>
      (Except.error e, logp s ("❌ Error reading JSON file: " ++ e.msg))

/-- `DataConnector.read_sqlite_table`: `with sqlite3.connect(path) as conn`
opens a handle; per the documented `sqlite3` context-manager semantics the
block exit commits or rolls back the transaction but does not close the
connection, and the source never calls `conn.close()`, so `openConns`
stays incremented on both exit paths.  Executes
`SELECT * FROM <table>` with the table name substituted verbatim. -/
def read_sqlite_table (w : World) (path table : String) (opts : Opts)
    (s : PyState) : Except PyError Table × PyState :=
  let s := logp s ("🗄️  Reading SQLite table \x27" ++ table ++ "\x27 from: " ++ path)
  let s := sqliteConnect s
  let q := "SELECT * FROM " ++ table
  let s := { s with sqlCalls := s.sqlCalls ++ [("sqlite:" ++ path, q)] }
  match w.readSqlD ("sqlite:" ++ path) q opts with
  | Except.ok df => (Except.ok df, logp s (successLine df))
  | Except.error e =>
      (Except.error e, logp s ("❌ Error reading SQLite table: " ++ e.msg))

/-- `DataConnector.read_sqlite_query`: same scoped-connection shape as
`read_sqlite_table` (the `with` block ends the transaction only; the
handle is never closed), executing the caller query as given. -/
def read_sqlite_query (w : World) (path query : String) (opts : Opts)
    (s : PyState) : Except PyError Table × PyState :=
  let s := logp s ("🔍 Executing SQLite query on: " ++ path)
  let s := logp s ("   Query: " ++ queryPreview query)
  let s := sqliteConnect s
  let s := { s with sqlCalls := s.sqlCalls ++ [("sqlite:" ++ path, query)] }
  match w.readSqlD ("sqlite:" ++ path) query opts with
  | Except.ok df => (Except.ok df, logp s (successLine df))
  | Except.error e =>
      (Except.error e, logp s ("❌ Error executing SQLite query: " ++ e.msg))

/-- `DataConnector.list_sqlite_tables`: opens a connection (again never
closed by the `with` block) and reads the table names from
`sqlite_master`. -/
def list_sqlite_tables (w : World) (path : String) (s : PyState) :
    Except PyError (List String) × PyState :=
  let s := sqliteConnect s
  let s := { s with sqlCalls := s.sqlCalls ++
      [("sqlite:" ++ path, "SELECT name FROM sqlite_master WHERE type=\x27table\x27;")] }
  match w.sqliteMasterD path with
  | Except.ok tables =>
      (Except.ok tables,
        logp s ("📋 Found " ++ toString tables.length ++ " tables: " ++ toString tables))
  | Except.error e =>
      (Except.error e, logp s ("❌ Error listing SQLite tables: " ++ e.msg))

/-- The SQLAlchemy connection string built by `read_mysql`. -/
def mysqlConnStr (host database username password : String) (port : Nat) : String :=
  "mysql+pymysql://" ++ username ++ ":" ++ password ++ "@" ++ host ++ ":"
    ++ toString port ++ "/" ++ database

/-- The connection string built by `read_postgresql`. -/
def pgConnStr (host database username password : String) (port : Nat) : String :=
  "postgresql://" ++ username ++ ":" ++ password ++ "@" ++ host ++ ":"
    ++ toString port ++ "/" ++ database

/-- The `ImportError` message raised when `import pymysql` fails. -/
def mysqlDepMsg : String :=
  "PyMySQL is required for MySQL connections. Install with: pip install pymysql"

/-- The `ImportError` message raised when `import psycopg2` fails. -/
def pgDepMsg : String :=
  "psycopg2 is required for PostgreSQL connections. Install with: pip install psycopg2-binary"

/-- The `ImportError` message raised when `import pandas_gbq` fails. -/
def gbqDepMsg : String :=
  "pandas-gbq is required for BigQuery connections. Install with: pip install pandas-gbq"

/-- The `ValueError` message of `read_mysql` / `read_postgresql` when
neither `table` nor `query` is truthy. -/
def tableOrQueryMsg : String :=
  "Either \x27table\x27 or \x27query\x27 parameter must be provided"

/-- The `ValueError` message of `read_bigquery` when neither `query` nor
`table_id` is truthy. -/
def queryOrTableIdMsg : String :=
  "Either \x27query\x27 or \x27table_id\x27 parameter must be provided"

/-- `DataConnector.read_mysql`: the `import pymysql` guard runs first
(outside the logging `try`); then `if query: ... elif table: ... else
ValueError`, with Python truthiness on both optional strings.  The
`ValueError` is raised inside the second `try`, so its message is also
echoed to the log before it propagates. -/
def read_mysql (w : World) (host database username password : String)
    (table query : Option String) (port : Nat) (opts : Opts) (s : PyState) :
    Except PyError Table × PyState :=
  if !w.pymysql then
    (Except.error ⟨"ImportError", mysqlDepMsg⟩, s)
  else
    let s := logp s ("🐬 Connecting to MySQL: " ++ host ++ ":" ++ toString port
      ++ "/" ++ database)
    let cs := mysqlConnStr host database username password port
    if truthy query then
      let q := query.getD ""
      let s := logp s ("   Executing query: " ++ queryPreview q)
      let s := { s with sqlCalls := s.sqlCalls ++ [(cs, q)] }
      match w.readSqlD cs q opts with
      | Except.ok df => (Except.ok df, logp s (successLine df))
      | Except.error e =>
          (Except.error e, logp s ("❌ Error reading from MySQL: " ++ e.msg))
    else if truthy table then
      let t := table.getD ""
      let s := logp s ("   Reading table: " ++ t)
      let q := "SELECT * FROM " ++ t
      let s := { s with sqlCalls := s.sqlCalls ++ [(cs, q)] }
      match w.readSqlD cs q opts with
      | Except.ok df => (Except.ok df, logp s (successLine df))
      | Except.error e =>
          (Except.error e, logp s ("❌ Error reading from MySQL: " ++ e.msg))
    else
      (Except.error ⟨"ValueError", tableOrQueryMsg⟩,
        logp s ("❌ Error reading from MySQL: " ++ tableOrQueryMsg))

/-- `DataConnector.read_postgresql`: identical shape to `read_mysql`
with the psycopg2 import guard, the PostgreSQL connection string and
default port 5432. -/
def read_postgresql (w : World) (host database username password : String)
    (table query : Option String) (port : Nat) (opts : Opts) (s : PyState) :
    Except PyError Table × PyState :=
  if !w.psycopg2 then
    (Except.error ⟨"ImportError", pgDepMsg⟩, s)
  else
    let s := logp s ("🐘 Connecting to PostgreSQL: " ++ host ++ ":" ++ toString port
      ++ "/" ++ database)
    let cs := pgConnStr host database username password port
    if truthy query then
      let q := query.getD ""
      let s := logp s ("   Executing query: " ++ queryPreview q)
      let s := { s with sqlCalls := s.sqlCalls ++ [(cs, q)] }
      match w.readSqlD cs q opts with
      | Except.ok df => (Except.ok df, logp s (successLine df))
      | Except.error e =>
          (Except.error e, logp s ("❌ Error reading from PostgreSQL: " ++ e.msg))
    else if truthy table then
      let t := table.getD ""
      let s := logp s ("   Reading table: " ++ t)
      let q := "SELECT * FROM " ++ t
      let s := { s with sqlCalls := s.sqlCalls ++ [(cs, q)] }
      match w.readSqlD cs q opts with
      | Except.ok df => (Except.ok df, logp s (successLine df))
      | Except.error e =>
          (Except.error e, logp s ("❌ Error reading from PostgreSQL: " ++ e.msg))
    else
      (Except.error ⟨"ValueError", tableOrQueryMsg⟩,
        logp s ("❌ Error reading from PostgreSQL: " ++ tableOrQueryMsg))

/-- `DataConnector.read_bigquery`: `import pandas_gbq` guard first; if
`credentials_path` is truthy the process environment variable
`GOOGLE_APPLICATION_CREDENTIALS` is set (a global mutation, never
restored); then `if query: ... elif table_id: ... else ValueError`, the
`table_id` branch building a `SELECT * FROM` query with backtick
quoting.  Each `pandas_gbq.read_gbq` call is recorded together with the
value the credentials variable has at call time. -/
def read_bigquery (w : World) (project_id : String)
    (query table_id credentials_path : Option String) (opts : Opts)
    (s : PyState) : Except PyError Table × PyState :=
  if !w.pandas_gbq then
    (Except.error ⟨"ImportError", gbqDepMsg⟩, s)
  else
    let s := logp s ("☁️  Connecting to BigQuery project: " ++ project_id)
    let s :=
      if truthy credentials_path then
        let cp := credentials_path.getD ""
        logp (setEnvVar s "GOOGLE_APPLICATION_CREDENTIALS" cp)
          ("   Using credentials: " ++ cp)
      else s
    if truthy query then
      let q := query.getD ""
      let s := logp s ("   Executing query: " ++ queryPreview q)
      let s := { s with gbqCalls := s.gbqCalls ++
          [(q, project_id, getEnvVar s "GOOGLE_APPLICATION_CREDENTIALS")] }
      match w.readGbqD q project_id opts with
      | Except.ok df => (Except.ok df, logp s (successLine df))
      | Except.error e =>
          (Except.error e, logp s ("❌ Error reading from BigQuery: " ++ e.msg))
    else if truthy table_id then
      let tid := table_id.getD ""
      let s := logp s ("   Reading table: " ++ tid)
      let q := "SELECT * FROM `" ++ tid ++ "`"
      let s := { s with gbqCalls := s.gbqCalls ++
          [(q, project_id, getEnvVar s "GOOGLE_APPLICATION_CREDENTIALS")] }
      match w.readGbqD q project_id opts with
      | Except.ok df => (Except.ok df, logp s (successLine df))
      | Except.error e =>
          (Except.error e, logp s ("❌ Error reading from BigQuery: " ++ e.msg))
    else
      (Except.error ⟨"ValueError", queryOrTableIdMsg⟩,
        logp s ("❌ Error reading from BigQuery: " ++ queryOrTableIdMsg))

/-- Split a character list on a separator character. -/
def splitOn (sep : Char) : List Char → List (List Char)
  | [] => [[]]
  | c :: rest =>
      let r := splitOn sep rest
      if c = sep then [] :: r
      else (c :: r.headD []) :: r.tail

/-- `pathlib.PurePath(p).name` for POSIX paths: the last path component,
with empty and `.` components dropped (as pathlib normalisation does). -/
def pyName (p : String) : String :=
  ⟨((splitOn '/' p.data).filter
      (fun t => !t.isEmpty && !(t == ['.']))).getLastD []⟩

/-- Index of the last `.` in a character list (`str.rfind`). -/
def lastDotPos : List Char → Option Nat
  | [] => none
  | c :: rest =>
      match lastDotPos rest with
      | some i => some (i + 1)
      | none => if c = '.' then some 0 else none

/-- `pathlib.PurePath(p).suffix`: the extension of the final component,
dot included; empty when the name has no dot, starts with its only dot,
or ends with the dot. -/
def pySuffix (p : String) : String :=
  let nm := (pyName p).data
  match lastDotPos nm with
  | some i => if 0 < i && i + 1 < nm.length then ⟨nm.drop i⟩ else ""
  | none => ""

/-- `str.lower` (ASCII case folding, all the dispatch needs). -/
def pyLower (s : String) : String :=
  ⟨s.data.map Char.toLower⟩

/-- The `ValueError` message of `auto_detect_and_read` on a SQLite file
with no tables. -/
def noTablesMsg : String := "No tables found in SQLite database"

/-- The SQLite branch of `auto_detect_and_read`: list the tables first;
zero tables is a `ValueError`; a `table` key in the kwargs is popped and
read; otherwise the first catalog table is read after a warning line. -/
def sqliteAutoBranch (w : World) (path : String) (opts : Opts) (s : PyState) :
    Except PyError Table × PyState :=
  match list_sqlite_tables w path s with
  | (Except.error e, s) => (Except.error e, s)
  | (Except.ok tables, s) =>
      if tables.isEmpty then
        (Except.error ⟨"ValueError", noTablesMsg⟩, s)
      else
        match List.lookup "table" opts with
        | some t => read_sqlite_table w path t (eraseKey "table" opts) s
        | none =>
            let s := logp s ("⚠️  Multiple tables found. Reading first table: "
              ++ tables.headD "")
            read_sqlite_table w path (tables.headD "") opts s

/-- `DataConnector.auto_detect_and_read`: dispatch on the lower-cased
extension of the path.  The Excel branch calls
`self.read_excel(path, **kwargs)`, so a `sheet_name` key in the kwargs
binds the wrapper `sheet_name` parameter. -/
def auto_detect_and_read (w : World) (path : String) (opts : Opts)
    (s : PyState) : Except PyError Table × PyState :=
  let extension := pyLower (pySuffix path)
  let s := logp s ("🔍 Auto-detecting file type: " ++ extension)
  if extension = ".csv" then read_csv w path opts s
  else if extension = ".xlsx" ∨ extension = ".xls" then
    read_excel w path (List.lookup "sheet_name" opts)
      (eraseKey "sheet_name" opts) s
  else if extension = ".json" then read_json w path opts s
  else if extension = ".db" ∨ extension = ".sqlite" ∨ extension = ".sqlite3" then
    sqliteAutoBranch w path opts s
  else
    (Except.error ⟨"ValueError", "Unsupported file format: " ++ extension⟩, s)

/-- Initial process state: no open handles, empty environment and log. -/
def s0 : PyState := ⟨0, [], [], [], []⟩

/-- A sample two-column table used by the concrete worlds. -/
def tblA : Table := ⟨["a", "b"], [["1", "2"], ["3", "4"]]⟩

/-- Wrap a SQL query in a one-cell table, so that a delegate result
identifies which query was actually executed. -/
def echoTable (q : String) : Table := ⟨["q"], [[q]]⟩

/-- A concrete world in which every delegate succeeds: the SQL and
BigQuery delegates echo the executed query, the catalog lists
`["users", "orders"]`, the Excel delegate returns the all-sheets dict
for `sheet_name=None` and a single frame otherwise, and all three
optional drivers are importable. -/
def okW : World where
  readCsvD := fun _ _ => Except.ok tblA
  readExcelD := fun _ sh _ =>
    match sh with
    | SheetArg.noneArg => Except.ok (ExcelResult.sheets [("Sheet1", tblA)])
    | _ => Except.ok (ExcelResult.frame tblA)
  readJsonD := fun _ _ => Except.ok tblA
  readSqlD := fun _ q _ => Except.ok (echoTable q)
  sqliteMasterD := fun _ => Except.ok ["users", "orders"]
  readGbqD := fun q _ _ => Except.ok (echoTable q)
  pymysql := true
  psycopg2 := true
  pandas_gbq := true

/-- A concrete world in which every delegate raises (drivers importable,
reads fail), exercising the failure paths. -/
def failW : World where
  readCsvD := fun _ _ => Except.error ⟨"FileNotFoundError", "no such file"⟩
  readExcelD := fun _ _ _ => Except.error ⟨"XLRDError", "unsupported workbook"⟩
  readJsonD := fun _ _ => Except.error ⟨"ValueError", "trailing data"⟩
  readSqlD := fun _ _ _ => Except.error ⟨"OperationalError", "no such table: missing"⟩
  sqliteMasterD := fun _ => Except.error ⟨"DatabaseError", "file is not a database"⟩
  readGbqD := fun _ _ _ => Except.error ⟨"GenericGBQException", "Reason: 403"⟩
  pymysql := true
  psycopg2 := true
  pandas_gbq := true

/-- A concrete world in which none of the three optional drivers can be
imported (delegates otherwise as in `okW`). -/
def noDriverW : World :=
  { okW with pymysql := false, psycopg2 := false, pandas_gbq := false }

/-- A concrete world whose SQLite catalog is empty. -/
def emptyDbW : World :=
  { okW with sqliteMasterD := fun _ => Except.ok [] }

/-- C1: the claim says every SQLite-backed operation releases the
connection it opened on every exit path.  In the source the `with
sqlite3.connect(path)` block only ends the transaction on exit and
`conn.close()` is never called, so the handle count stays at 1 after a
failing `read_sqlite_query` (and likewise after a successful one, after
`read_sqlite_table`, and after `list_sqlite_tables`): an open handle
remains after the call raises. -/
theorem C1_sqlite_handle_not_released :
    (read_sqlite_query failW "data.db" "SELECT * FROM missing" [] s0).fst
        = Except.error ⟨"OperationalError", "no such table: missing"⟩
    ∧ (read_sqlite_query failW "data.db" "SELECT * FROM missing" [] s0).snd.openConns = 1
    ∧ (read_sqlite_query okW "data.db" "SELECT 1" [] s0).snd.openConns = 1
    ∧ (read_sqlite_table failW "data.db" "missing" [] s0).snd.openConns = 1
    ∧ (list_sqlite_tables failW "bad.db" s0).snd.openConns = 1 := by
  exact ⟨rfl, rfl, rfl, rfl, rfl⟩

/-- C2: the claim says `read_excel` with `sheet_name` omitted returns
the delegate default-sheet selection.  The source passes
`sheet_name=None` to the delegate explicitly; the delegate default is
sheet index 0, while `None` selects all sheets and returns a dict, on
which the success status line raises `AttributeError`.  At a concrete
workbook the omitted-sheet call raises while the delegate default-sheet
invocation returns a frame. -/
theorem C2_excel_default_sheet_mismatch :
    (read_excel okW "book.xlsx" none [] s0).fst
        = Except.error
            ⟨"AttributeError", "\x27dict\x27 object has no attribute \x27shape\x27"⟩
    ∧ okW.readExcelD "book.xlsx" pdDefaultSheet [] = Except.ok (ExcelResult.frame tblA)
    ∧ (read_excel okW "book.xlsx" none [] s0).fst ≠ Except.ok tblA := by
  exact ⟨rfl, rfl, by decide⟩

/-- C3: with both `table` and `query` equal to `None` (and the drivers
importable, so the import guard passes), `read_mysql` and
`read_postgresql` fail with the `ValueError`
"Either 'table' or 'query' parameter must be provided", issue no
delegate read (`sqlCalls` unchanged) and open no connection
(`openConns` unchanged), for every host, database, username, password,
port, options and state. -/
theorem C3_missing_params_config_error (w : World)
    (host database username password : String) (mport pport : Nat)
    (opts : Opts) (s : PyState)
    (hmy : w.pymysql = true) (hpg : w.psycopg2 = true) :
    (read_mysql w host database username password none none mport opts s).fst
        = Except.error ⟨"ValueError", tableOrQueryMsg⟩
    ∧ (read_mysql w host database username password none none mport opts s).snd.sqlCalls
        = s.sqlCalls
    ∧ (read_mysql w host database username password none none mport opts s).snd.openConns
        = s.openConns
    ∧ (read_postgresql w host database username password none none pport opts s).fst
        = Except.error ⟨"ValueError", tableOrQueryMsg⟩
    ∧ (read_postgresql w host database username password none none pport opts s).snd.sqlCalls
        = s.sqlCalls
    ∧ (read_postgresql w host database username password none none pport opts s).snd.openConns
        = s.openConns := by
  simp [read_mysql, read_postgresql, hmy, hpg, truthy, logp]

/-- Witness for C3 at a concrete world and input. -/
theorem C3_missing_params_config_error_w :
    (read_mysql okW "h" "d" "u" "p" none none 3306 [] s0).fst
        = Except.error ⟨"ValueError", tableOrQueryMsg⟩
    ∧ (read_mysql okW "h" "d" "u" "p" none none 3306 [] s0).snd.sqlCalls = s0.sqlCalls
    ∧ (read_mysql okW "h" "d" "u" "p" none none 3306 [] s0).snd.openConns = s0.openConns
    ∧ (read_postgresql okW "h" "d" "u" "p" none none 5432 [] s0).fst
        = Except.error ⟨"ValueError", tableOrQueryMsg⟩
    ∧ (read_postgresql okW "h" "d" "u" "p" none none 5432 [] s0).snd.sqlCalls = s0.sqlCalls
    ∧ (read_postgresql okW "h" "d" "u" "p" none none 5432 [] s0).snd.openConns
        = s0.openConns := by
  exact C3_missing_params_config_error okW "h" "d" "u" "p" 3306 5432 [] s0 rfl rfl

/-- Python truthiness of a non-empty optional string. -/
theorem truthy_some_true {q : String} (hq : q ≠ "") : truthy (some q) = true := by
  simp [truthy, hq]

/-- C4 counterexample: supplying both `table="t"` and `query=""` to
`read_mysql` executes `SELECT * FROM t` — not the supplied query — so
the table argument does affect the delegate invocation (dropping it
changes the outcome from a successful table read to a `ValueError`).
The empty string is falsy in Python, so `if query:` skips the query
branch. -/
theorem C4_empty_query_counterexample :
    (read_mysql okW "h" "d" "u" "p" (some "t") (some "") 3306 [] s0).snd.sqlCalls
        = [("mysql+pymysql://u:p@h:3306/d", "SELECT * FROM t")]
    ∧ (read_mysql okW "h" "d" "u" "p" (some "t") (some "") 3306 [] s0).snd.sqlCalls
        ≠ [("mysql+pymysql://u:p@h:3306/d", "")]
    ∧ (read_mysql okW "h" "d" "u" "p" (some "t") (some "") 3306 [] s0).fst
        ≠ (read_mysql okW "h" "d" "u" "p" none (some "") 3306 [] s0).fst := by
  exact ⟨rfl, by decide, by decide⟩

/-- C4 amended: when the supplied query is non-empty it takes
precedence — the call is identical to the same call with the table
argument dropped, and (driver available) the delegate executes exactly
the supplied query; an empty-string query is falsy and falls back to
the table branch.  Holds for `read_mysql`, `read_postgresql` and
`read_bigquery`. -/
theorem C4_nonempty_query_precedence (w : World)
    (host database username password project_id : String)
    (table table_id credentials_path : Option String) (q : String)
    (mport pport : Nat) (opts : Opts) (s : PyState) (hq : q ≠ "") :
    read_mysql w host database username password table (some q) mport opts s
        = read_mysql w host database username password none (some q) mport opts s
    ∧ (w.pymysql = true →
        (read_mysql w host database username password table (some q) mport opts s).snd.sqlCalls
          = s.sqlCalls ++ [(mysqlConnStr host database username password mport, q)])
    ∧ read_postgresql w host database username password table (some q) pport opts s
        = read_postgresql w host database username password none (some q) pport opts s
    ∧ (w.psycopg2 = true →
        (read_postgresql w host database username password table (some q) pport opts s).snd.sqlCalls
          = s.sqlCalls ++ [(pgConnStr host database username password pport, q)])
    ∧ read_bigquery w project_id (some q) table_id credentials_path opts s
        = read_bigquery w project_id (some q) none credentials_path opts s
    ∧ (w.pandas_gbq = true →
        ((read_bigquery w project_id (some q) table_id credentials_path opts s).snd.gbqCalls.map
            (fun c => (c.fst, c.snd.fst)))
          = s.gbqCalls.map (fun c => (c.fst, c.snd.fst)) ++ [(q, project_id)]) := by
  have htq := truthy_some_true hq
  refine ⟨?_, ?_, ?_, ?_, ?_, ?_⟩
  · cases hmy : w.pymysql <;> simp [read_mysql, hmy, htq]
  · intro hmy
    cases hres : w.readSqlD (mysqlConnStr host database username password mport) q opts <;>
      simp [read_mysql, hmy, htq, hres, logp]
  · cases hpg : w.psycopg2 <;> simp [read_postgresql, hpg, htq]
  · intro hpg
    cases hres : w.readSqlD (pgConnStr host database username password pport) q opts <;>
      simp [read_postgresql, hpg, htq, hres, logp]
  · cases hbq : w.pandas_gbq <;> cases hc : truthy credentials_path <;>
      simp [read_bigquery, hbq, htq, hc]
  · intro hbq
    cases hc : truthy credentials_path <;>
      cases hres : w.readGbqD q project_id opts <;>
        simp [read_bigquery, hbq, htq, hc, hres, logp, setEnvVar, getEnvVar]

/-- Witness for the C4 amended theorem at a concrete input. -/
theorem C4_nonempty_query_precedence_w :
    read_mysql okW "h" "d" "u" "p" (some "t") (some "SELECT 1") 3306 [] s0
        = read_mysql okW "h" "d" "u" "p" none (some "SELECT 1") 3306 [] s0
    ∧ (okW.pymysql = true →
        (read_mysql okW "h" "d" "u" "p" (some "t") (some "SELECT 1") 3306 [] s0).snd.sqlCalls
          = s0.sqlCalls ++ [(mysqlConnStr "h" "d" "u" "p" 3306, "SELECT 1")]) := by
  have h := C4_nonempty_query_precedence okW "h" "d" "u" "p" "proj"
    (some "t") (some "tid") (some "/c.json") "SELECT 1" 3306 5432 [] s0 (by decide)
  exact ⟨h.1, h.2.1⟩

/-- C5: when the optional driver cannot be imported, each networked
read fails immediately with an `ImportError` (a kind distinct from any
delegate-raised connection failure) carrying the fixed message, which
names the missing capability (`PyMySQL` / `psycopg2` / `pandas-gbq`)
and the remedy (`pip install ...`); the state is untouched, so no
connection was attempted. -/
theorem C5_dependency_missing (w : World)
    (host database username password project_id : String)
    (table query table_id credentials_path : Option String)
    (mport pport : Nat) (opts : Opts) (s : PyState)
    (hmy : w.pymysql = false) (hpg : w.psycopg2 = false)
    (hbq : w.pandas_gbq = false) :
    read_mysql w host database username password table query mport opts s
        = (Except.error ⟨"ImportError", mysqlDepMsg⟩, s)
    ∧ List.IsInfix "PyMySQL".data mysqlDepMsg.data
    ∧ List.IsInfix "pip install pymysql".data mysqlDepMsg.data
    ∧ read_postgresql w host database username password table query pport opts s
        = (Except.error ⟨"ImportError", pgDepMsg⟩, s)
    ∧ List.IsInfix "psycopg2".data pgDepMsg.data
    ∧ List.IsInfix "pip install psycopg2-binary".data pgDepMsg.data
    ∧ read_bigquery w project_id query table_id credentials_path opts s
        = (Except.error ⟨"ImportError", gbqDepMsg⟩, s)
    ∧ List.IsInfix "pandas-gbq".data gbqDepMsg.data
    ∧ List.IsInfix "pip install pandas-gbq".data gbqDepMsg.data := by
  refine ⟨?_, by decide, by decide, ?_, by decide, by decide, ?_, by decide, by decide⟩
  · simp [read_mysql, hmy]
  · simp [read_postgresql, hpg]
  · simp [read_bigquery, hbq]

/-- Witness for C5 at the concrete driverless world. -/
theorem C5_dependency_missing_w :
    read_mysql noDriverW "h" "d" "u" "p" (some "t") none 3306 [] s0
        = (Except.error ⟨"ImportError", mysqlDepMsg⟩, s0)
    ∧ read_postgresql noDriverW "h" "d" "u" "p" (some "t") none 5432 [] s0
        = (Except.error ⟨"ImportError", pgDepMsg⟩, s0)
    ∧ read_bigquery noDriverW "proj" (some "SELECT 1") none none [] s0
        = (Except.error ⟨"ImportError", gbqDepMsg⟩, s0) := by
  have h := C5_dependency_missing noDriverW "h" "d" "u" "p" "proj"
    (some "t") (some "SELECT 1") none none 3306 5432 [] s0 rfl rfl rfl
  exact ⟨(C5_dependency_missing noDriverW "h" "d" "u" "p" "proj"
      (some "t") none none none 3306 5432 [] s0 rfl rfl rfl).1,
    h.2.2.2.1, h.2.2.2.2.2.2.1⟩

/-- C10: the import guard runs before parameter validation — with all
arguments absent and the driver unavailable, the failure is the
`ImportError`, not the `ValueError`, for all three networked reads. -/
theorem C10_dependency_check_first (w : World)
    (host database username password project_id : String)
    (mport pport : Nat) (opts : Opts) (s : PyState)
    (hmy : w.pymysql = false) (hpg : w.psycopg2 = false)
    (hbq : w.pandas_gbq = false) :
    (read_mysql w host database username password none none mport opts s).fst
        = Except.error ⟨"ImportError", mysqlDepMsg⟩
    ∧ (read_mysql w host database username password none none mport opts s).fst
        ≠ Except.error ⟨"ValueError", tableOrQueryMsg⟩
    ∧ (read_postgresql w host database username password none none pport opts s).fst
        = Except.error ⟨"ImportError", pgDepMsg⟩
    ∧ (read_postgresql w host database username password none none pport opts s).fst
        ≠ Except.error ⟨"ValueError", tableOrQueryMsg⟩
    ∧ (read_bigquery w project_id none none none opts s).fst
        = Except.error ⟨"ImportError", gbqDepMsg⟩
    ∧ (read_bigquery w project_id none none none opts s).fst
        ≠ Except.error ⟨"ValueError", queryOrTableIdMsg⟩ := by
  have h1 : (read_mysql w host database username password none none mport opts s).fst
      = Except.error ⟨"ImportError", mysqlDepMsg⟩ := by simp [read_mysql, hmy]
  have h2 : (read_postgresql w host database username password none none pport opts s).fst
      = Except.error ⟨"ImportError", pgDepMsg⟩ := by simp [read_postgresql, hpg]
  have h3 : (read_bigquery w project_id none none none opts s).fst
      = Except.error ⟨"ImportError", gbqDepMsg⟩ := by simp [read_bigquery, hbq]
  refine ⟨h1, ?_, h2, ?_, h3, ?_⟩
  · rw [h1]; decide
  · rw [h2]; decide
  · rw [h3]; decide

/-- Witness for C10 at the concrete driverless world. -/
theorem C10_dependency_check_first_w :
    (read_mysql noDriverW "h" "d" "u" "p" none none 3306 [] s0).fst
        = Except.error ⟨"ImportError", mysqlDepMsg⟩
    ∧ (read_mysql noDriverW "h" "d" "u" "p" none none 3306 [] s0).fst
        ≠ Except.error ⟨"ValueError", tableOrQueryMsg⟩
    ∧ (read_bigquery noDriverW "proj" none none none [] s0).fst
        = Except.error ⟨"ImportError", gbqDepMsg⟩ := by
  have h := C10_dependency_check_first noDriverW "h" "d" "u" "p" "proj"
    3306 5432 [] s0 rfl rfl rfl
  exact ⟨h.1, h.2.1, h.2.2.2.2.1⟩

/-- Dispatch helper: on a SQLite extension, `auto_detect_and_read` runs
the SQLite branch after the detection log line. -/
theorem auto_detect_sqlite_eq (w : World) (path : String) (opts : Opts)
    (s : PyState)
    (hext : pyLower (pySuffix path) = ".db" ∨ pyLower (pySuffix path) = ".sqlite"
      ∨ pyLower (pySuffix path) = ".sqlite3") :
    auto_detect_and_read w path opts s
      = sqliteAutoBranch w path opts
          (logp s ("🔍 Auto-detecting file type: " ++ pyLower (pySuffix path))) := by
  rcases hext with h | h | h <;> simp [auto_detect_and_read, h]

/-- The result value of `read_sqlite_table` does not depend on the
incoming state (only the delegate outcome determines it). -/
theorem read_sqlite_table_fst (w : World) (path table : String) (opts : Opts)
    (s s2 : PyState) :
    (read_sqlite_table w path table opts s).fst
      = (read_sqlite_table w path table opts s2).fst := by
  cases h : w.readSqlD ("sqlite:" ++ path) ("SELECT * FROM " ++ table) opts <;>
    simp [read_sqlite_table, h]

/-- `read_sqlite_table` only appends to the log. -/
theorem read_sqlite_table_log_mem (w : World) (path table : String)
    (opts : Opts) (s : PyState) (line : String) (h : line ∈ s.log) :
    line ∈ (read_sqlite_table w path table opts s).snd.log := by
  cases hres : w.readSqlD ("sqlite:" ++ path) ("SELECT * FROM " ++ table) opts <;>
    simp [read_sqlite_table, hres, logp, sqliteConnect, h]

/-- C6: `auto_detect_and_read` dispatches on the lower-cased extension
of the path: `.csv` to `read_csv`, `.xlsx`/`.xls` to `read_excel`,
`.json` to `read_json`, `.db`/`.sqlite`/`.sqlite3` to the SQLite
branch, and any other extension fails with a `ValueError` whose message
names that extension. -/
theorem C6_extension_dispatch (w : World) (path : String) (opts : Opts)
    (s : PyState) :
    (pyLower (pySuffix path) = ".csv" →
       auto_detect_and_read w path opts s
         = read_csv w path opts
             (logp s ("🔍 Auto-detecting file type: " ++ pyLower (pySuffix path))))
    ∧ ((pyLower (pySuffix path) = ".xlsx" ∨ pyLower (pySuffix path) = ".xls") →
       auto_detect_and_read w path opts s
         = read_excel w path (List.lookup "sheet_name" opts)
             (eraseKey "sheet_name" opts)
             (logp s ("🔍 Auto-detecting file type: " ++ pyLower (pySuffix path))))
    ∧ (pyLower (pySuffix path) = ".json" →
       auto_detect_and_read w path opts s
         = read_json w path opts
             (logp s ("🔍 Auto-detecting file type: " ++ pyLower (pySuffix path))))
    ∧ ((pyLower (pySuffix path) = ".db" ∨ pyLower (pySuffix path) = ".sqlite"
          ∨ pyLower (pySuffix path) = ".sqlite3") →
       auto_detect_and_read w path opts s
         = sqliteAutoBranch w path opts
             (logp s ("🔍 Auto-detecting file type: " ++ pyLower (pySuffix path))))
    ∧ (pyLower (pySuffix path) ∉
          ([".csv", ".xlsx", ".xls", ".json", ".db", ".sqlite", ".sqlite3"] : List String) →
       auto_detect_and_read w path opts s
         = (Except.error
              ⟨"ValueError", "Unsupported file format: " ++ pyLower (pySuffix path)⟩,
            logp s ("🔍 Auto-detecting file type: " ++ pyLower (pySuffix path)))) := by
  refine ⟨?_, ?_, ?_, auto_detect_sqlite_eq w path opts s, ?_⟩
  · intro h; simp [auto_detect_and_read, h]
  · rintro (h | h) <;> simp [auto_detect_and_read, h]
  · intro h; simp [auto_detect_and_read, h]
  · intro h
    simp only [List.mem_cons, List.not_mem_nil, or_false, not_or] at h
    obtain ⟨h1, h2, h3, h4, h5, h6, h7⟩ := h
    simp [auto_detect_and_read, h1, h2, h3, h4, h5, h6, h7]

/-- Witness for C6: a `.csv` path dispatches to `read_csv`, and a
`.parquet` path fails with the `ValueError` naming `.parquet`. -/
theorem C6_extension_dispatch_w :
    auto_detect_and_read okW "data.csv" [] s0
      = read_csv okW "data.csv" []
          (logp s0 ("🔍 Auto-detecting file type: " ++ pyLower (pySuffix "data.csv")))
    ∧ auto_detect_and_read okW "data.parquet" [] s0
      = (Except.error ⟨"ValueError", "Unsupported file format: .parquet"⟩,
         logp s0 ("🔍 Auto-detecting file type: .parquet")) := by
  refine ⟨(C6_extension_dispatch okW "data.csv" [] s0).1 rfl, ?_⟩
  have h := (C6_extension_dispatch okW "data.parquet" [] s0).2.2.2.2 (by decide)
  simpa using h

/-- C7: on a SQLite-extension path, `auto_detect_and_read` (i) fails
with the `ValueError` "No tables found in SQLite database" when the
catalog is empty, (ii) reads the table named by the `table` option
(popped from the kwargs) when one is supplied, and (iii) otherwise
returns exactly the result of `read_sqlite_table` on the first table in
catalog order, additionally emitting the default-selection warning line
into the log. -/
theorem C7_sqlite_auto_selection (w : World) (path : String) (opts : Opts)
    (s : PyState)
    (hext : pyLower (pySuffix path) = ".db" ∨ pyLower (pySuffix path) = ".sqlite"
      ∨ pyLower (pySuffix path) = ".sqlite3") :
    (w.sqliteMasterD path = Except.ok [] →
       (auto_detect_and_read w path opts s).fst
         = Except.error ⟨"ValueError", noTablesMsg⟩)
    ∧ (∀ tables t, w.sqliteMasterD path = Except.ok tables → tables ≠ [] →
        List.lookup "table" opts = some t →
        (auto_detect_and_read w path opts s).fst
          = (read_sqlite_table w path t (eraseKey "table" opts) s).fst)
    ∧ (∀ tables, w.sqliteMasterD path = Except.ok tables → tables ≠ [] →
        List.lookup "table" opts = none →
        (auto_detect_and_read w path opts s).fst
          = (read_sqlite_table w path (tables.headD "") opts s).fst
        ∧ ("⚠️  Multiple tables found. Reading first table: " ++ tables.headD "")
            ∈ (auto_detect_and_read w path opts s).snd.log) := by
  rw [auto_detect_sqlite_eq w path opts s hext]
  refine ⟨?_, ?_, ?_⟩
  · intro hm
    simp [sqliteAutoBranch, list_sqlite_tables, hm, logp]
  · intro tables t hm hne hopt
    simp only [sqliteAutoBranch, list_sqlite_tables, hm, hopt, logp, sqliteConnect,
      List.isEmpty_iff, if_neg hne]
    exact read_sqlite_table_fst w path t (eraseKey "table" opts) _ s
  · intro tables hm hne hopt
    simp only [sqliteAutoBranch, list_sqlite_tables, hm, hopt, logp, sqliteConnect,
      List.isEmpty_iff, if_neg hne]
    constructor
    · exact read_sqlite_table_fst w path (tables.headD "") opts _ s
    · exact read_sqlite_table_log_mem w path (tables.headD "") opts _ _ (by simp [logp])

/-- Witness for C7: auto-detection on `shop.db` with tables
`["users", "orders"]` and no table option returns the `users` read and
logs the default-selection warning. -/
theorem C7_sqlite_auto_selection_w :
    (auto_detect_and_read okW "shop.db" [] s0).fst
      = (read_sqlite_table okW "shop.db" "users" [] s0).fst
    ∧ ("⚠️  Multiple tables found. Reading first table: users")
        ∈ (auto_detect_and_read okW "shop.db" [] s0).snd.log := by
  have h := (C7_sqlite_auto_selection okW "shop.db" [] s0 (Or.inl rfl)).2.2
    ["users", "orders"] rfl (by decide) rfl
  exact ⟨h.1, by simpa using h.2⟩

/-- C8: when a (non-empty) credentials path is supplied and the
BigQuery capability is importable, `GOOGLE_APPLICATION_CREDENTIALS` is
set to it in the process environment of the final state — the mutation
is global and never undone, on success, on delegate failure and on the
parameter `ValueError` alike — and every `read_gbq` call issued by the
call observes the variable already set to the credentials path. -/
theorem C8_credentials_env_global (w : World) (project_id cp : String)
    (query table_id : Option String) (opts : Opts) (s : PyState)
    (hgbq : w.pandas_gbq = true) (hcp : cp ≠ "") :
    getEnvVar (read_bigquery w project_id query table_id (some cp) opts s).snd
        "GOOGLE_APPLICATION_CREDENTIALS" = some cp
    ∧ ∀ c ∈ (read_bigquery w project_id query table_id (some cp) opts s).snd.gbqCalls.drop
          s.gbqCalls.length, c.snd.snd = some cp := by
  have htc := truthy_some_true hcp
  constructor
  · cases hq : truthy query
    · cases ht : truthy table_id
      · simp [read_bigquery, hgbq, htc, hq, ht, getEnvVar, setEnvVar, logp]
      · cases hres : w.readGbqD ("SELECT * FROM `" ++ table_id.getD "" ++ "`")
            project_id opts <;>
          simp [read_bigquery, hgbq, htc, hq, ht, hres, getEnvVar, setEnvVar, logp]
    · cases hres : w.readGbqD (query.getD "") project_id opts <;>
        simp [read_bigquery, hgbq, htc, hq, hres, getEnvVar, setEnvVar, logp]
  · cases hq : truthy query
    · cases ht : truthy table_id
      · simp [read_bigquery, hgbq, htc, hq, ht, getEnvVar, setEnvVar, logp]
      · cases hres : w.readGbqD ("SELECT * FROM `" ++ table_id.getD "" ++ "`")
            project_id opts <;>
          simp [read_bigquery, hgbq, htc, hq, ht, hres, getEnvVar, setEnvVar, logp,
            List.drop_left]
    · cases hres : w.readGbqD (query.getD "") project_id opts <;>
        simp [read_bigquery, hgbq, htc, hq, hres, getEnvVar, setEnvVar, logp,
          List.drop_left]

/-- Witness for C8 at a concrete call. -/
theorem C8_credentials_env_global_w :
    getEnvVar (read_bigquery okW "proj" (some "SELECT 1") none
        (some "/tmp/cred.json") [] s0).snd "GOOGLE_APPLICATION_CREDENTIALS"
      = some "/tmp/cred.json"
    ∧ ∀ c ∈ (read_bigquery okW "proj" (some "SELECT 1") none
        (some "/tmp/cred.json") [] s0).snd.gbqCalls.drop s0.gbqCalls.length,
        c.snd.snd = some "/tmp/cred.json" := by
  exact C8_credentials_env_global okW "proj" "/tmp/cred.json" (some "SELECT 1")
    none [] s0 rfl (by decide)

/-- C9: whatever the delegate raises is what the caller observes, with
the same kind and message, and nothing is substituted or retried: the
result value of `read_csv`, `read_json` and the SQLite operations
equals the delegate outcome itself; for `read_excel` at any sheet
argument (omitted included) a delegate failure surfaces as exactly that
failure; and for `read_mysql`, `read_postgresql` and `read_bigquery`
the result value equals the delegate outcome on the executed query in
both the query branch and the table branch, for arbitrary table,
table_id and credentials arguments. -/
theorem C9_failure_propagation (w : World)
    (path tbl q host database username password project_id : String)
    (sheet table query table_id credentials_path : Option String)
    (mport pport : Nat) (opts : Opts) (s : PyState) :
    (read_csv w path opts s).fst = w.readCsvD path opts
    ∧ (read_json w path opts s).fst = w.readJsonD path opts
    ∧ (read_sqlite_table w path tbl opts s).fst
        = w.readSqlD ("sqlite:" ++ path) ("SELECT * FROM " ++ tbl) opts
    ∧ (read_sqlite_query w path q opts s).fst = w.readSqlD ("sqlite:" ++ path) q opts
    ∧ (list_sqlite_tables w path s).fst = w.sqliteMasterD path
    ∧ (∀ e, w.readExcelD path (toSheetArg sheet) opts = Except.error e →
        (read_excel w path sheet opts s).fst = Except.error e)
    ∧ (w.pymysql = true → truthy query = true →
        (read_mysql w host database username password table query mport opts s).fst
          = w.readSqlD (mysqlConnStr host database username password mport)
              (query.getD "") opts)
    ∧ (w.pymysql = true → truthy query = false → truthy table = true →
        (read_mysql w host database username password table query mport opts s).fst
          = w.readSqlD (mysqlConnStr host database username password mport)
              ("SELECT * FROM " ++ table.getD "") opts)
    ∧ (w.psycopg2 = true → truthy query = true →
        (read_postgresql w host database username password table query pport opts s).fst
          = w.readSqlD (pgConnStr host database username password pport)
              (query.getD "") opts)
    ∧ (w.psycopg2 = true → truthy query = false → truthy table = true →
        (read_postgresql w host database username password table query pport opts s).fst
          = w.readSqlD (pgConnStr host database username password pport)
              ("SELECT * FROM " ++ table.getD "") opts)
    ∧ (w.pandas_gbq = true → truthy query = true →
        (read_bigquery w project_id query table_id credentials_path opts s).fst
          = w.readGbqD (query.getD "") project_id opts)
    ∧ (w.pandas_gbq = true → truthy query = false → truthy table_id = true →
        (read_bigquery w project_id query table_id credentials_path opts s).fst
          = w.readGbqD ("SELECT * FROM `" ++ table_id.getD "" ++ "`")
              project_id opts) := by
  refine ⟨?_, ?_, ?_, ?_, ?_, ?_, ?_, ?_, ?_, ?_, ?_, ?_⟩
  · cases h : w.readCsvD path opts <;> simp [read_csv, h]
  · cases h : w.readJsonD path opts <;> simp [read_json, h]
  · cases h : w.readSqlD ("sqlite:" ++ path) ("SELECT * FROM " ++ tbl) opts <;>
      simp [read_sqlite_table, h]
  · cases h : w.readSqlD ("sqlite:" ++ path) q opts <;> simp [read_sqlite_query, h]
  · cases h : w.sqliteMasterD path <;> simp [list_sqlite_tables, h]
  · intro e he
    cases hts : truthy sheet <;> simp [read_excel, hts, he]
  · intro hmy htq
    cases hres : w.readSqlD (mysqlConnStr host database username password mport)
        (query.getD "") opts <;>
      simp [read_mysql, hmy, htq, hres]
  · intro hmy hqf htt
    cases hres : w.readSqlD (mysqlConnStr host database username password mport)
        ("SELECT * FROM " ++ table.getD "") opts <;>
      simp [read_mysql, hmy, hqf, htt, hres]
  · intro hpg htq
    cases hres : w.readSqlD (pgConnStr host database username password pport)
        (query.getD "") opts <;>
      simp [read_postgresql, hpg, htq, hres]
  · intro hpg hqf htt
    cases hres : w.readSqlD (pgConnStr host database username password pport)
        ("SELECT * FROM " ++ table.getD "") opts <;>
      simp [read_postgresql, hpg, hqf, htt, hres]
  · intro hbq htq
    cases hc : truthy credentials_path <;>
      cases hres : w.readGbqD (query.getD "") project_id opts <;>
        simp [read_bigquery, hbq, htq, hc, hres]
  · intro hbq hqf htt
    cases hc : truthy credentials_path <;>
      cases hres : w.readGbqD ("SELECT * FROM `" ++ table_id.getD "" ++ "`")
          project_id opts <;>
        simp [read_bigquery, hbq, hqf, htt, hc, hres]

/-- Witness for C9: concrete delegate failures surface unchanged with
their own kind and message, including the table branch of `read_mysql`
and `read_excel` with the sheet omitted. -/
theorem C9_failure_propagation_w :
    (read_csv failW "missing.csv" [] s0).fst
      = Except.error ⟨"FileNotFoundError", "no such file"⟩
    ∧ (read_mysql failW "h" "d" "u" "p" (some "users") none 3306 [] s0).fst
      = Except.error ⟨"OperationalError", "no such table: missing"⟩
    ∧ (read_excel failW "book.xlsx" none [] s0).fst
      = Except.error ⟨"XLRDError", "unsupported workbook"⟩ := by
  have h := C9_failure_propagation failW "missing.csv" "t" "SELECT 1"
    "h" "d" "u" "p" "proj" none (some "users") none none none 3306 5432 [] s0
  exact ⟨h.1.trans rfl,
    (h.2.2.2.2.2.2.2.1 rfl rfl (by decide)).trans rfl,
    h.2.2.2.2.2.1 _ rfl⟩
